import Mathlib

/-!
Shallow embedding of the Sage reporting program (src/app.py).

Conventions of the embedding:
* Timestamps (`datetime`) are natural numbers counting seconds (UTC);
  `timedelta(days=d)` is `d * 86400` and `timedelta(hours=h)` is `h * 3600`.
* The two database tables (`clients`, `payloads`) are maps from the
  `client_id` primary key to an optional row.
* The external SHA-256 hex digest (`hashlib.sha256(...).hexdigest()`) is an
  uninterpreted function parameter `sha256_hexdigest : String → String`,
  threaded to the definitions that use it, exactly as `hash_password` wraps it.
* Each request handler is a function from the database state (and the request
  data, the current time, and the authentication facts established by the
  framework) to a result paired with the database state after the handler.
* JSON request bodies for `/push-data` are modelled by the structure
  `PushBody`, one field per key the handler reads; `data` and `year` keep
  their JSON values via the small `Json` type below.
-/

namespace Sage

/-- Minimal JSON value model, enough for the payload documents the
handlers store and inspect. -/
inductive Json where
  | null : Json
  | str : String → Json
  | num : Int → Json
  | boolean : Bool → Json
  | obj : List (String × Json) → Json
  | arr : List Json → Json

/-- Python truthiness of a JSON value (used by `year or ""` in the page
handler). -/
def Json.truthy : Json → Bool
  | Json.null => false
  | Json.str s => !(s == "")
  | Json.num n => !(n == 0)
  | Json.boolean b => b
  | Json.obj fs => !fs.isEmpty
  | Json.arr xs => !xs.isEmpty

/-- Configuration read from the environment at process start
(`TRIAL_DAYS`, `MAX_VIEWS`, `HTML_VALID_HOURS`; defaults 3 / 3 / 24). -/
structure Config where
  TRIAL_DAYS : Nat
  MAX_VIEWS : Nat
  HTML_VALID_HOURS : Nat

/-- The three defaults from the source (`3`, `3`, `24`). -/
def defaultConfig : Config := { TRIAL_DAYS := 3, MAX_VIEWS := 3, HTML_VALID_HOURS := 24 }

/-- A row of the `clients` table (`client_id` is the map key, so it is not
repeated inside the row).  `trial_start` is `NOT NULL` in the schema and is
always supplied on insert, so it is a plain timestamp here. -/
structure ClientRecord where
  password_hash : Option String
  trial_start : Nat
  views_used : Nat
  window_expires_at : Option Nat

/-- The JSON body of a `/push-data` request, one field per key `push_data`
reads (`payload.get(...)`).  A missing key is `none`. -/
structure PushBody where
  client_id : String
  password : Option String
  year : Option Json
  data : Option Json
  excel_filename : Option String
  excel_b64 : Option String

/-- A row of the `payloads` table.  `payload_json` holds
`json.dumps(payload)`: the entire request body, verbatim. -/
structure PayloadRow where
  payload_json : PushBody
  updated_at : Nat
  excel_filename : Option String
  excel_b64 : Option String

/-- The database state: the two tables keyed by `client_id`. -/
structure DB where
  clients : String → Option ClientRecord
  payloads : String → Option PayloadRow

/-- The empty database (state after `init_db` on a fresh store). -/
def emptyDB : DB := { clients := fun _ => none, payloads := fun _ => none }

/-- Characters kept after dropping leading and trailing whitespace. -/
def stripChars (cs : List Char) : List Char :=
  ((cs.dropWhile Char.isWhitespace).reverse.dropWhile Char.isWhitespace).reverse

/-- Python's `str.strip()`, used on every `client_id` the handlers receive. -/
def pyStrip (s : String) : String := String.mk (stripChars s.data)

/-- Point update of a keyed table (the effect of an SQL `INSERT`/`UPDATE`
at one primary key). -/
def upd {α : Type} (m : String → Option α) (k : String) (v : α) :
    String → Option α :=
  fun k2 => if k2 = k then some v else m k2

/-- Source `hash_password`: wraps the external SHA-256 hex digest. -/
def hash_password (sha256_hexdigest : String → String) (password : String) :
    String :=
  sha256_hexdigest password

/-- Source `verify_password`: hash the submitted password with the same
function and compare with the stored hash. -/
def verify_password (sha256_hexdigest : String → String)
    (password hashed : String) : Bool :=
  hash_password sha256_hexdigest password == hashed

/-- Source `trial_is_active`: `utc_now() <= trial_start + timedelta(days=TRIAL_DAYS)`,
with `utc_now()` passed in as `now`. -/
def trial_is_active (cfg : Config) (now trial_start : Nat) : Bool :=
  decide (now ≤ trial_start + cfg.TRIAL_DAYS * 86400)

/-- The window test `(window_exp is None) or (now > window_exp)` shared by
`ensure_access_window` (as its renewal trigger) and `report_api` (as its
deny condition). -/
def window_missing_or_expired (now : Nat) (window_exp : Option Nat) : Bool :=
  match window_exp with
  | none => true
  | some w => decide (w < now)

/-- The row written by the renewal `UPDATE`:
`views_used = views_used + 1, window_expires_at = now + timedelta(hours=HTML_VALID_HOURS)`. -/
def renewedRecord (cfg : Config) (now : Nat) (row : ClientRecord) :
    ClientRecord :=
  { row with
      views_used := row.views_used + 1,
      window_expires_at := some (now + cfg.HTML_VALID_HOURS * 3600) }

/-- Body of `ensure_access_window` after the client row has been fetched
(`row = cur.fetchone()` succeeded). -/
def eaw_with_row (cfg : Config) (now : Nat) (db : DB) (client_id : String)
    (row : ClientRecord) : (Bool × String × Option ClientRecord) × DB :=
  if trial_is_active cfg now row.trial_start = false then
    ((false, "Trial ended", some row), db)
  else if window_missing_or_expired now row.window_expires_at then
    if cfg.MAX_VIEWS ≤ row.views_used then
      ((false, "Trial limit reached", some row), db)
    else
      ((true, "OK", some (renewedRecord cfg now row)),
       { db with clients := upd db.clients client_id (renewedRecord cfg now row) })
  else
    ((true, "OK", some row), db)

/-- Source `ensure_access_window`: returns the `(allowed, msg, row)` triple
together with the database state after the call. -/
def ensure_access_window (cfg : Config) (now : Nat) (db : DB)
    (client_id : String) : (Bool × String × Option ClientRecord) × DB :=
  match db.clients client_id with
  | none => ((false, "No client", none), db)
  | some row => eaw_with_row cfg now db client_id row

/-- Outcome of `require_active_window_or_403`: an HTTP 403 with the denial
message, or the (possibly renewed) client row. -/
inductive WindowGate where
  | forbidden : String → WindowGate
  | allowed : Option ClientRecord → WindowGate

/-- Source `require_active_window_or_403`. -/
def require_active_window_or_403 (cfg : Config) (now : Nat) (db : DB)
    (client_id : String) : WindowGate × DB :=
  let r := ensure_access_window cfg now db client_id
  if r.1.1 = false then (WindowGate.forbidden r.1.2.1, r.2)
  else (WindowGate.allowed r.1.2.2, r.2)

/-- The `password_hash = hash_password(password) if password else None`
line of `push_data` (`None` and `""` are both falsy). -/
def pushPasswordHash (sha256_hexdigest : String → String)
    (password : Option String) : Option String :=
  match password with
  | none => none
  | some p => if p == "" then none else some (hash_password sha256_hexdigest p)

/-- Result of the `/push-data` handler. -/
inductive PushResult where
  | badRequest : String → PushResult
  | ok : String → PushResult

/-- Source `push_data` (after the `require_api_key()` gate): validates the
body, lazily creates the `clients` row, optionally updates the password
hash, and upserts the `payloads` row with the whole body. -/
def push_data (sha256_hexdigest : String → String) (now : Nat) (db : DB)
    (body : PushBody) : PushResult × DB :=
  let client_id := pyStrip body.client_id
  if client_id == "" then (PushResult.badRequest "client_id required", db)
  else
    match body.data with
    | some (Json.obj fields) =>
      let _ := fields
      let password_hash := pushPasswordHash sha256_hexdigest body.password
      let clients' :=
        match db.clients client_id with
        | none =>
          upd db.clients client_id
            { password_hash := password_hash, trial_start := now,
              views_used := 0, window_expires_at := none }
        | some existing =>
          match password_hash with
          | some h => upd db.clients client_id { existing with password_hash := some h }
          | none => db.clients
      let payloads' :=
        upd db.payloads client_id
          { payload_json := body, updated_at := now,
            excel_filename := body.excel_filename, excel_b64 := body.excel_b64 }
      (PushResult.ok ("/report/" ++ client_id),
       { clients := clients', payloads := payloads' })
    | _ => (PushResult.badRequest "data must be object/dict", db)

/-- Result of the login POST handler. -/
inductive LoginResult where
  | clientNotFound : LoginResult
  | success : LoginResult
  | incorrectPassword : LoginResult

/-- Source `login_submit`.  The second component is the session flag
`session["auth_<client_id>"]` after the request (assumed unset before). -/
def login_submit (sha256_hexdigest : String → String) (db : DB)
    (client_id0 password : String) : LoginResult × Bool :=
  let client_id := pyStrip client_id0
  match db.clients client_id with
  | none => (LoginResult.clientNotFound, false)
  | some row =>
    match row.password_hash with
    | none => (LoginResult.success, true)
    | some stored_hash =>
      if stored_hash == "" then (LoginResult.success, true)
      else if verify_password sha256_hexdigest password stored_hash then
        (LoginResult.success, true)
      else (LoginResult.incorrectPassword, false)

/-- The JSON document built by `report_api` on success.  `updated_at` keeps
the raw timestamp (the `strftime` formatting is presentation only), and
`valid_until` keeps the raw expiry. -/
structure ApiResponse where
  client : String
  year : Json
  updated_at : Nat
  valid_until : Option Nat
  views_used : Nat
  views_max : Nat
  data : Json
  excel : Option (String × String)

/-- Result of the `/api/report/<client_id>` handler. -/
inductive ApiResult where
  | notAuthenticated : ApiResult
  | notFound : ApiResult
  | forbidden : String → ApiResult
  | ok : ApiResponse → ApiResult

/-- The `if excel_filename and excel_b64` guard of the API response
(both present and truthy). -/
def api_excel (excel_filename excel_b64 : Option String) :
    Option (String × String) :=
  match excel_filename, excel_b64 with
  | some f, some b =>
    if f == "" then none else if b == "" then none else some (f, b)
  | _, _ => none

/-- Source `report_api`: authentication, client lookup, trial check,
window-validity check (renewal-free), payload lookup, response assembly. -/
def report_api (cfg : Config) (now : Nat) (db : DB) (authed : Bool)
    (client_id0 : String) : ApiResult × DB :=
  let client_id := pyStrip client_id0
  if authed = false then (ApiResult.notAuthenticated, db)
  else
    match db.clients client_id with
    | none => (ApiResult.notFound, db)
    | some client =>
      if trial_is_active cfg now client.trial_start = false then
        (ApiResult.forbidden "Trial ended", db)
      else if window_missing_or_expired now client.window_expires_at then
        (ApiResult.forbidden "Access window expired", db)
      else
        match db.payloads client_id with
        | none => (ApiResult.notFound, db)
        | some prow =>
          (ApiResult.ok
            { client := client_id,
              year := (prow.payload_json.year).getD (Json.str ""),
              updated_at := prow.updated_at,
              valid_until := client.window_expires_at,
              views_used := client.views_used,
              views_max := cfg.MAX_VIEWS,
              data := (prow.payload_json.data).getD (Json.obj []),
              excel := api_excel prow.excel_filename prow.excel_b64 }, db)

/-- Result of the `/report/<client_id>` page handler. -/
inductive PageResult where
  | redirectLogin : PageResult
  | noData : PageResult
  | forbidden : String → PageResult
  | page : String → Json → Option Nat → Nat → Nat → PageResult

/-- Source `report_page`: authentication, payload existence (404), then the
window gate (which may renew), then the template rendering. -/
def report_page (cfg : Config) (now : Nat) (db : DB) (authed : Bool)
    (client_id0 : String) : PageResult × DB :=
  let client_id := pyStrip client_id0
  if authed = false then (PageResult.redirectLogin, db)
  else
    match db.payloads client_id with
    | none => (PageResult.noData, db)
    | some prow =>
      match require_active_window_or_403 cfg now db client_id with
      | (WindowGate.forbidden msg, db2) => (PageResult.forbidden msg, db2)
      | (WindowGate.allowed rowOpt, db2) =>
        let year := (prow.payload_json.year).getD Json.null
        let year2 := if Json.truthy year then year else Json.str ""
        match rowOpt with
        | some row =>
          (PageResult.page client_id year2 row.window_expires_at
            row.views_used cfg.MAX_VIEWS, db2)
        | none =>
          -- unreachable: an admitted outcome always carries a row
          (PageResult.page client_id year2 none 0 cfg.MAX_VIEWS, db2)

/-!
Decomposition of `ensure_access_window`'s database interaction into its two
SQL statements, for reasoning about interleavings of concurrent requests.
The `SELECT` takes no lock, so between the `SELECT` and the `UPDATE` of one
request another request may run both of its statements; the `UPDATE`
increments whatever `views_used` value is current when it executes
(`views_used = views_used + 1` is evaluated by the database at write time).
-/

/-- Whether the `SELECT`ed state sends `ensure_access_window` into the
renewal branch (trial active, window missing or expired, budget left). -/
def eaw_takes_renewal_branch (cfg : Config) (now : Nat) (db : DB)
    (client_id : String) : Bool :=
  match db.clients client_id with
  | none => false
  | some row =>
    trial_is_active cfg now row.trial_start &&
      (window_missing_or_expired now row.window_expires_at &&
        decide (row.views_used < cfg.MAX_VIEWS))

/-- The renewal `UPDATE` statement alone: unconditional, keyed only on
`client_id`, incrementing the current `views_used`. -/
def eaw_update (cfg : Config) (now : Nat) (db : DB) (client_id : String) :
    DB :=
  match db.clients client_id with
  | none => db
  | some row =>
    { db with clients := upd db.clients client_id (renewedRecord cfg now row) }

/-!
Operation traces: sequential composition of the handlers' database effects,
used for reachability invariants.
-/

/-- One request, as it affects the database. -/
inductive Op where
  | push : Nat → PushBody → Op
  | page : Nat → Bool → String → Op
  | api : Nat → Bool → String → Op
  | login : String → String → Op

/-- The database after serving one request (`login_submit` only reads the
database; its session effect lives outside it). -/
def applyOp (cfg : Config) (sha256_hexdigest : String → String) (db : DB) :
    Op → DB
  | Op.push now body => (push_data sha256_hexdigest now db body).2
  | Op.page now authed cid => (report_page cfg now db authed cid).2
  | Op.api now authed cid => (report_api cfg now db authed cid).2
  | Op.login _ _ => db

/-- The database after serving a sequence of requests. -/
def runOps (cfg : Config) (sha256_hexdigest : String → String) :
    DB → List Op → DB
  | db, [] => db
  | db, op :: ops => runOps cfg sha256_hexdigest (applyOp cfg sha256_hexdigest db op) ops

/-- A body passes `push_data`'s validation: non-empty `client_id` and a
JSON object under `data`. -/
def validPush (body : PushBody) : Prop :=
  pyStrip body.client_id ≠ "" ∧ ∃ fs, body.data = some (Json.obj fs)

/-- The operation is a valid push for the given identifier — the only kind
of request that ever creates a `clients` row. -/
def Op.createsClient : Op → String → Prop
  | Op.push _ body, id => pyStrip body.client_id = id ∧ validPush body
  | Op.page _ _ _, _ => False
  | Op.api _ _ _, _ => False
  | Op.login _ _, _ => False

/-!
Concrete fixtures used to evaluate the handlers at specific states.
Constant-map tables keep concrete lookups definitionally transparent.
-/

/-- A client row with an open window until time 100 and one view used. -/
def wRow : ClientRecord :=
  { password_hash := none, trial_start := 0, views_used := 1,
    window_expires_at := some 100 }

/-- A fresh client row: no window ever opened, no views used. -/
def freshRow : ClientRecord :=
  { password_hash := none, trial_start := 0, views_used := 0,
    window_expires_at := none }

/-- A client row whose trial has ended but whose window is far in the
future and whose view budget is not exhausted. -/
def endedRow : ClientRecord :=
  { password_hash := none, trial_start := 0, views_used := 1,
    window_expires_at := some 10000000 }

/-- `freshRow` after the renewal at time 10 under `defaultConfig`. -/
def renewedFreshRow : ClientRecord :=
  { password_hash := none, trial_start := 0, views_used := 0 + 1,
    window_expires_at := some (10 + 24 * 3600) }

/-- A well-formed push body for client "c". -/
def wBody : PushBody :=
  { client_id := "c", password := none, year := some (Json.num 2025),
    data := some (Json.obj []), excel_filename := none, excel_b64 := none }

/-- The payload row produced by pushing `wBody` at time 0. -/
def wPayloadRow : PayloadRow :=
  { payload_json := wBody, updated_at := 0, excel_filename := none,
    excel_b64 := none }

/-- Every key holds `wRow` and `wPayloadRow`. -/
def wDB : DB :=
  { clients := fun _ => some wRow, payloads := fun _ => some wPayloadRow }

/-- Every key holds a fresh client with no payload. -/
def freshDB : DB :=
  { clients := fun _ => some freshRow, payloads := fun _ => none }

/-- Every key holds `endedRow` with a payload. -/
def endedDB : DB :=
  { clients := fun _ => some endedRow, payloads := fun _ => some wPayloadRow }

/-- Every key holds `wRow` (window expired at any `now > 100`), no payloads:
the state two concurrent renewals race on. -/
def raceDB : DB :=
  { clients := fun _ => some wRow, payloads := fun _ => none }

/-- A deterministic stand-in for the external SHA-256 hex digest, used
only to instantiate concrete witnesses. -/
def cexHash : String → String := fun s => String.append "sha256:" s

/-- A client row with an already-stored credential hash. -/
def c8Row : ClientRecord :=
  { password_hash := some "oldhash", trial_start := 0, views_used := 0,
    window_expires_at := none }

/-- Every key holds `c8Row`, no payloads. -/
def c8DB : DB := { clients := fun _ => some c8Row, payloads := fun _ => none }

/-- A push body that supplies the password "" (present but empty). -/
def c8Body : PushBody :=
  { client_id := "c", password := some "", year := none,
    data := some (Json.obj []), excel_filename := none, excel_b64 := none }

/-- A push body that supplies the password "pw". -/
def c9Body : PushBody :=
  { client_id := "c", password := some "pw", year := none,
    data := some (Json.obj []), excel_filename := none, excel_b64 := none }

/-- A push body carrying a plaintext password next to its data. -/
def c10Body : PushBody :=
  { client_id := "c", password := some "secret", year := some (Json.num 2025),
    data := some (Json.obj [("total", Json.num 7)]), excel_filename := none,
    excel_b64 := none }

/-!
Helper lemmas shared by the claim theorems.
-/

theorem upd_self {α : Type} (m : String → Option α) (k : String) (v : α) :
    upd m k v k = some v := by
  simp [upd]

theorem upd_other {α : Type} (m : String → Option α) (k : String) (v : α)
    (id : String) (h : id ≠ k) : upd m k v id = m id := by
  simp [upd, h]

theorem wmoe_false_iff (now : Nat) (we : Option Nat) :
    window_missing_or_expired now we = false ↔ ∃ w, we = some w ∧ now ≤ w := by
  cases we with
  | none => simp [window_missing_or_expired]
  | some w => simp [window_missing_or_expired, Nat.not_lt]

theorem wmoe_true_of_expired (now w : Nat) (h : w < now) :
    window_missing_or_expired now (some w) = true := by
  simp [window_missing_or_expired, h]

/-- The `/api/report` handler issues no `INSERT` or `UPDATE`: in every
branch it returns the database unchanged. -/
theorem report_api_db_eq (cfg : Config) (now : Nat) (db : DB) (authed : Bool)
    (cid : String) : (report_api cfg now db authed cid).2 = db := by
  unfold report_api
  dsimp only
  repeat' split
  all_goals rfl

end Sage

namespace Sage

/-- C1: the data-fetch (API) handler never changes `views_used` or
`window_expires_at` and never opens a new window — it leaves the whole
database, hence every `ClientRecord`, unchanged in all cases — and, for an
authenticated request against a client whose payload exists, it admits
exactly when the client row exists, the trial is active, and
`window_expires_at` is non-null and not past `now`. -/
theorem C1_data_fetch_frame_and_admission (cfg : Config) (now : Nat)
    (db : DB) (cid : String) (hpay : db.payloads (pyStrip cid) ≠ none) :
    (∀ authed, (report_api cfg now db authed cid).2 = db) ∧
    ((∃ resp, (report_api cfg now db true cid).1 = ApiResult.ok resp) ↔
      ∃ row, db.clients (pyStrip cid) = some row ∧
        trial_is_active cfg now row.trial_start = true ∧
        ∃ w, row.window_expires_at = some w ∧ now ≤ w) := by
  refine ⟨fun authed => report_api_db_eq cfg now db authed cid, ?_⟩
  cases hcl : db.clients (pyStrip cid) with
  | none =>
    constructor
    · rintro ⟨resp, hresp⟩
      simp [report_api, hcl] at hresp
    · rintro ⟨row, hrow, -⟩
      exact Option.noConfusion hrow
  | some row =>
    cases htr : trial_is_active cfg now row.trial_start with
    | false =>
      constructor
      · rintro ⟨resp, hresp⟩
        simp [report_api, hcl, htr] at hresp
      · rintro ⟨row2, hrow2, htr2, -⟩
        injection hrow2 with h
        subst h
        rw [htr] at htr2
        exact Bool.noConfusion htr2
    | true =>
      cases hw : window_missing_or_expired now row.window_expires_at with
      | true =>
        constructor
        · rintro ⟨resp, hresp⟩
          simp [report_api, hcl, htr, hw] at hresp
        · rintro ⟨row2, hrow2, -, w, hwe, hle⟩
          injection hrow2 with h
          subst h
          rw [hwe] at hw
          simp [window_missing_or_expired] at hw
          omega
      | false =>
        obtain ⟨prow, hprow⟩ := Option.ne_none_iff_exists'.mp hpay
        obtain ⟨w, hwe, hle⟩ := (wmoe_false_iff now row.window_expires_at).mp hw
        have hok : (report_api cfg now db true cid).1 = ApiResult.ok
            { client := pyStrip cid,
              year := prow.payload_json.year.getD (Json.str ""),
              updated_at := prow.updated_at,
              valid_until := row.window_expires_at,
              views_used := row.views_used,
              views_max := cfg.MAX_VIEWS,
              data := prow.payload_json.data.getD (Json.obj []),
              excel := api_excel prow.excel_filename prow.excel_b64 } := by
          simp [report_api, hcl, htr, hw, hprow]
        constructor
        · intro _
          exact ⟨row, rfl, htr, w, hwe, hle⟩
        · intro _
          exact ⟨_, hok⟩

/-- C2: for an existing client with an active trial, the page-path
evaluation renews when the window is null or expired and budget remains —
setting `window_expires_at` to `now + HTML_VALID_HOURS` (in seconds),
incrementing `views_used` by exactly 1, and admitting with the updated
snapshot — and admits with the current snapshot and no mutation when the
window is still valid. -/
theorem C2_page_evaluation (cfg : Config) (now : Nat) (db : DB)
    (cid : String) (row : ClientRecord)
    (hrow : db.clients cid = some row)
    (htrial : trial_is_active cfg now row.trial_start = true) :
    (window_missing_or_expired now row.window_expires_at = true →
      row.views_used < cfg.MAX_VIEWS →
      ensure_access_window cfg now db cid =
        ((true, "OK", some { row with
            views_used := row.views_used + 1,
            window_expires_at := some (now + cfg.HTML_VALID_HOURS * 3600) }),
         { db with clients := upd db.clients cid { row with
            views_used := row.views_used + 1,
            window_expires_at := some (now + cfg.HTML_VALID_HOURS * 3600) } })) ∧
    (∀ w, row.window_expires_at = some w → now ≤ w →
      ensure_access_window cfg now db cid = ((true, "OK", some row), db)) := by
  constructor
  · intro hw hv
    simp [ensure_access_window, eaw_with_row, hrow, htrial, hw,
      Nat.not_le.mpr hv, renewedRecord]
  · intro w hwe hle
    simp [ensure_access_window, eaw_with_row, hrow, htrial, hwe,
      window_missing_or_expired, Nat.not_lt.mpr hle]

/-- C5: once `now` is past `trial_start + TRIAL_DAYS`, the page evaluation,
the data-fetch handler, and the page handler all deny with the trial-ended
reason and mutate nothing, whatever the window and view state. -/
theorem C5_trial_end_precedence (cfg : Config) (now : Nat) (db : DB)
    (cid : String) (row : ClientRecord)
    (hstrip : pyStrip cid = cid)
    (hrow : db.clients cid = some row)
    (hend : row.trial_start + cfg.TRIAL_DAYS * 86400 < now) :
    ensure_access_window cfg now db cid = ((false, "Trial ended", some row), db) ∧
    report_api cfg now db true cid = (ApiResult.forbidden "Trial ended", db) ∧
    (db.payloads cid ≠ none →
      report_page cfg now db true cid = (PageResult.forbidden "Trial ended", db)) := by
  have htr : trial_is_active cfg now row.trial_start = false := by
    simp only [trial_is_active, decide_eq_false_iff_not]
    omega
  refine ⟨?_, ?_, ?_⟩
  · simp [ensure_access_window, eaw_with_row, hrow, htr]
  · simp [report_api, hstrip, hrow, htr]
  · intro hpay
    obtain ⟨prow, hprow⟩ := Option.ne_none_iff_exists'.mp hpay
    simp [report_page, hstrip, hprow, require_active_window_or_403,
      ensure_access_window, eaw_with_row, hrow, htr]

/-- C1 witness: at a concrete authenticated state with a live window, the
data-fetch leaves the database unchanged and admits. -/
theorem C1_witness :
    (report_api defaultConfig 50 wDB true "c").2 = wDB ∧
    (∃ resp, (report_api defaultConfig 50 wDB true "c").1 = ApiResult.ok resp) := by
  have h := C1_data_fetch_frame_and_admission defaultConfig 50 wDB "c"
    (fun hn => Option.noConfusion hn)
  exact ⟨h.1 true, h.2.mpr ⟨wRow, rfl, by decide, 100, rfl, by omega⟩⟩

/-- C2 witness: a fresh client renews at time 10 (views 0 → 1, window set
to 10 + 24h), and a client inside its window at time 50 is admitted with
no mutation. -/
theorem C2_witness :
    ensure_access_window defaultConfig 10 freshDB "c" =
      ((true, "OK", some renewedFreshRow),
       { freshDB with clients := upd freshDB.clients "c" renewedFreshRow }) ∧
    ensure_access_window defaultConfig 50 wDB "c" = ((true, "OK", some wRow), wDB) := by
  constructor
  · exact (C2_page_evaluation defaultConfig 10 freshDB "c" freshRow rfl
      (by decide)).1 rfl (by decide)
  · exact (C2_page_evaluation defaultConfig 50 wDB "c" wRow rfl
      (by decide)).2 100 rfl (by omega)

/-- C5 witness: at time 300000 (past the 3-day trial from 0) a client with
an unexpired window and unused views is denied "Trial ended" on every path,
with no mutation. -/
theorem C5_witness :
    ensure_access_window defaultConfig 300000 endedDB "c" =
      ((false, "Trial ended", some endedRow), endedDB) ∧
    report_api defaultConfig 300000 endedDB true "c" =
      (ApiResult.forbidden "Trial ended", endedDB) ∧
    report_page defaultConfig 300000 endedDB true "c" =
      (PageResult.forbidden "Trial ended", endedDB) := by
  have h := C5_trial_end_precedence defaultConfig 300000 endedDB "c" endedRow
    (by decide) rfl (by decide)
  exact ⟨h.1, h.2.1, h.2.2 (fun hn => Option.noConfusion hn)⟩

/-- When the SELECTed state passes the renewal guard, the full
`ensure_access_window` call performs exactly the decomposed `UPDATE`:
the decomposition used for interleaving arguments is faithful. -/
theorem eaw_renewal_is_guard_then_update (cfg : Config) (now : Nat)
    (db : DB) (cid : String)
    (h : eaw_takes_renewal_branch cfg now db cid = true) :
    (ensure_access_window cfg now db cid).2 = eaw_update cfg now db cid := by
  cases hcl : db.clients cid with
  | none => simp [eaw_takes_renewal_branch, hcl] at h
  | some row =>
    simp only [eaw_takes_renewal_branch, hcl, Bool.and_eq_true,
      decide_eq_true_eq] at h
    obtain ⟨htr, hw, hv⟩ := h
    simp [ensure_access_window, eaw_with_row, eaw_update, hcl, htr, hw,
      Nat.not_le.mpr hv]

/-- C3: the renewal is a plain SELECT followed by an unconditional UPDATE,
not one atomic check-and-write.  At the concrete expired-window state
`raceDB` (views_used = 1, window expired at 100, now = 200) the renewal
guard passes against the shared snapshot, so two concurrent requests that
both SELECT before either UPDATEs then both run the UPDATE, and
`views_used` rises by 2 (1 → 3) for a single expiry event; an atomic
(fully sequential) pair of calls raises it only to 2. -/
theorem C3_renewal_race_double_increment :
    eaw_takes_renewal_branch defaultConfig 200 raceDB "c" = true ∧
    ((eaw_update defaultConfig 200 (eaw_update defaultConfig 200 raceDB "c") "c").clients "c").map
      ClientRecord.views_used = some 3 ∧
    ((ensure_access_window defaultConfig 200
        (ensure_access_window defaultConfig 200 raceDB "c").2 "c").2.clients "c").map
      ClientRecord.views_used = some 2 := by
  refine ⟨by decide, by decide, by decide⟩

/-- C6: denial classification of the view paths.  On any state where a
stored payload implies a stored client row (true of every reachable state,
since only `push_data` creates either, and it creates both), a missing
client row or missing payload yields the 404-class result on both view
paths and leaves the database untouched — a view attempt never creates
state — while trial-ended and limit-reached denials yield the 403-class
result carrying the reason text. -/
theorem C6_denial_status_mapping (cfg : Config) (now : Nat) (db : DB)
    (cid : String)
    (hreach : ∀ id, db.clients id = none → db.payloads id = none) :
    (db.clients (pyStrip cid) = none →
      report_api cfg now db true cid = (ApiResult.notFound, db) ∧
      report_page cfg now db true cid = (PageResult.noData, db)) ∧
    (db.payloads (pyStrip cid) = none →
      report_page cfg now db true cid = (PageResult.noData, db)) ∧
    (∀ row, db.clients (pyStrip cid) = some row →
      db.payloads (pyStrip cid) = none →
      trial_is_active cfg now row.trial_start = true →
      window_missing_or_expired now row.window_expires_at = false →
      report_api cfg now db true cid = (ApiResult.notFound, db)) ∧
    (∀ row, db.clients (pyStrip cid) = some row →
      trial_is_active cfg now row.trial_start = false →
      report_api cfg now db true cid = (ApiResult.forbidden "Trial ended", db) ∧
      (db.payloads (pyStrip cid) ≠ none →
        report_page cfg now db true cid = (PageResult.forbidden "Trial ended", db))) ∧
    (∀ row, db.clients (pyStrip cid) = some row →
      trial_is_active cfg now row.trial_start = true →
      window_missing_or_expired now row.window_expires_at = true →
      cfg.MAX_VIEWS ≤ row.views_used →
      db.payloads (pyStrip cid) ≠ none →
      report_page cfg now db true cid = (PageResult.forbidden "Trial limit reached", db)) := by
  refine ⟨?_, ?_, ?_, ?_, ?_⟩
  · intro hcl
    have hpay := hreach _ hcl
    constructor
    · simp [report_api, hcl]
    · simp [report_page, hpay]
  · intro hpay
    simp [report_page, hpay]
  · intro row hcl hpay htr hw
    simp [report_api, hcl, htr, hw, hpay]
  · intro row hcl htr
    constructor
    · simp [report_api, hcl, htr]
    · intro hpay
      obtain ⟨prow, hprow⟩ := Option.ne_none_iff_exists'.mp hpay
      simp [report_page, hprow, require_active_window_or_403,
        ensure_access_window, eaw_with_row, hcl, htr]
  · intro row hcl htr hw hv hpay
    obtain ⟨prow, hprow⟩ := Option.ne_none_iff_exists'.mp hpay
    simp [report_page, hprow, require_active_window_or_403,
      ensure_access_window, eaw_with_row, hcl, htr, hw, hv]

/-- C6 witness: on the empty database a view attempt for "c" is not-found
on both paths and creates nothing. -/
theorem C6_witness :
    report_api defaultConfig 0 emptyDB true "c" = (ApiResult.notFound, emptyDB) ∧
    report_page defaultConfig 0 emptyDB true "c" = (PageResult.noData, emptyDB) :=
  (C6_denial_status_mapping defaultConfig 0 emptyDB "c" (fun _ _ => rfl)).1 rfl

/-- C8 counterexample: the claim as stated says a push that supplies a
password overwrites the stored hash with the hash of the new password.
Pushing the supplied password "" against a client with stored hash
"oldhash" leaves "oldhash" in place (`if password` treats "" as falsy),
and "oldhash" is not the hash of the supplied password. -/
theorem C8_counterexample :
    ((push_data cexHash 5 c8DB c8Body).2.clients "c").map ClientRecord.password_hash =
      some (some "oldhash") ∧
    some "oldhash" ≠ some (hash_password cexHash "") := by
  exact ⟨by decide, by decide⟩

/-- C8 (amended): a push for an existing client with no password field, or
with an empty (falsy) password, leaves the stored client record — in
particular `password_hash` — unchanged; a push that supplies a non-empty
password rewrites exactly `password_hash`, to the hash of the new
password, leaving the other fields as they were. -/
theorem C8_password_update (sha : String → String) (now : Nat) (db : DB)
    (body : PushBody) (cid : String) (existing : ClientRecord)
    (hcid : pyStrip body.client_id = cid)
    (hex : db.clients cid = some existing)
    (hvalid : validPush body) :
    ((body.password = none ∨ body.password = some "") →
      (push_data sha now db body).2.clients cid = some existing) ∧
    (∀ p, body.password = some p → p ≠ "" →
      (push_data sha now db body).2.clients cid =
        some { existing with password_hash := some (hash_password sha p) }) := by
  obtain ⟨hne, fs, hdata⟩ := hvalid
  rw [hcid] at hne
  constructor
  · intro hp
    have hph : pushPasswordHash sha body.password = none := by
      rcases hp with h | h <;> simp [pushPasswordHash, h]
    simp [push_data, hcid, hdata, hne, hph, hex]
  · intro p hp hpne
    have hph : pushPasswordHash sha body.password = some (hash_password sha p) := by
      simp [pushPasswordHash, hp, hpne]
    simp [push_data, hcid, hdata, hne, hph, hex, upd_self]

/-- C8 witness: a password-free push keeps "oldhash"; a push carrying
"new" stores its hash. -/
theorem C8_witness :
    ((push_data cexHash 5 c8DB wBody).2.clients "c" = some c8Row) ∧
    ((push_data cexHash 5 c8DB { wBody with password := some "new" }).2.clients "c" =
      some { c8Row with password_hash := some (hash_password cexHash "new") }) := by
  constructor
  · exact (C8_password_update cexHash 5 c8DB wBody "c" c8Row (by decide) rfl
      ⟨by decide, [], rfl⟩).1 (Or.inl rfl)
  · exact (C8_password_update cexHash 5 c8DB { wBody with password := some "new" }
      "c" c8Row (by decide) rfl ⟨by decide, [], rfl⟩).2 "new" rfl (by decide)

/-- C9: credential checking is a round trip through the one hash function:
after a push stores the (non-empty) password `p`, a login submitting
exactly `p` succeeds and establishes the session; a login submitting any
password whose hash differs from that of `p` is rejected and establishes
no session; and a client with no stored hash admits any submission (open
access).  The hypothesis `sha p ≠ ""` records that a SHA-256 hex digest is
never the empty string. -/
theorem C9_credential_round_trip (sha : String → String) (now : Nat)
    (db : DB) (body : PushBody) (p : String)
    (hp : body.password = some p) (hpne : p ≠ "") (hdig : sha p ≠ "")
    (hvalid : validPush body) :
    (login_submit sha (push_data sha now db body).2 body.client_id p =
      (LoginResult.success, true)) ∧
    (∀ p2, sha p2 ≠ sha p →
      login_submit sha (push_data sha now db body).2 body.client_id p2 =
        (LoginResult.incorrectPassword, false)) ∧
    (∀ (db2 : DB) (cid : String) (row : ClientRecord),
      db2.clients (pyStrip cid) = some row → row.password_hash = none →
      ∀ q, login_submit sha db2 cid q = (LoginResult.success, true)) := by
  obtain ⟨hne, fs, hdata⟩ := hvalid
  have hph : pushPasswordHash sha body.password = some (sha p) := by
    simp [pushPasswordHash, hp, hpne, hash_password]
  have hstored : ∃ r, (push_data sha now db body).2.clients (pyStrip body.client_id) =
      some r ∧ r.password_hash = some (sha p) := by
    cases hex : db.clients (pyStrip body.client_id) with
    | none =>
      refine ⟨{ password_hash := some (sha p), trial_start := now,
                views_used := 0, window_expires_at := none }, ?_, rfl⟩
      simp [push_data, hdata, hne, hph, hex, upd_self]
    | some ex =>
      refine ⟨{ ex with password_hash := some (sha p) }, ?_, rfl⟩
      simp [push_data, hdata, hne, hph, hex, upd_self]
  obtain ⟨r, hr, hrph⟩ := hstored
  refine ⟨?_, ?_, ?_⟩
  · simp [login_submit, hr, hrph, hdig, verify_password, hash_password]
  · intro p2 hne2
    simp [login_submit, hr, hrph, hdig, verify_password, hash_password, hne2]
  · intro db2 cid row hrow hph2 q
    simp [login_submit, hrow, hph2]

/-- C9 witness: pushing "pw" for "c" makes the login "pw" succeed with a
session, the login "x" fail without one, and a hash-less client admits
anything. -/
theorem C9_witness :
    login_submit cexHash (push_data cexHash 5 emptyDB c9Body).2 "c" "pw" =
      (LoginResult.success, true) ∧
    login_submit cexHash (push_data cexHash 5 emptyDB c9Body).2 "c" "x" =
      (LoginResult.incorrectPassword, false) ∧
    login_submit cexHash freshDB "c" "anything" = (LoginResult.success, true) := by
  have h := C9_credential_round_trip cexHash 5 emptyDB c9Body "pw" rfl
    (by decide) (by decide) ⟨by decide, [], rfl⟩
  exact ⟨h.1, h.2.1 "x" (by decide), h.2.2 freshDB "c" freshRow rfl rfl "anything"⟩

/-- C10: the payload row stores the entire push body verbatim — including
the plaintext password field and the `client_id` itself — and the
data-fetch response is assembled from only the `data` and `year` members
of that stored document plus row and client-record metadata, so the
stored plaintext password does not occur in the response. -/
theorem C10_payload_verbatim_api_projection (cfg : Config)
    (sha : String → String) (now : Nat) (db : DB) (body : PushBody)
    (hvalid : validPush body) :
    ((push_data sha now db body).2.payloads (pyStrip body.client_id) =
      some { payload_json := body, updated_at := now,
             excel_filename := body.excel_filename,
             excel_b64 := body.excel_b64 }) ∧
    (∀ (now2 : Nat) (db2 : DB) (cid : String) (client : ClientRecord)
        (prow : PayloadRow) (w : Nat),
      db2.clients (pyStrip cid) = some client →
      trial_is_active cfg now2 client.trial_start = true →
      client.window_expires_at = some w → now2 ≤ w →
      db2.payloads (pyStrip cid) = some prow →
      report_api cfg now2 db2 true cid =
        (ApiResult.ok
          { client := pyStrip cid,
            year := prow.payload_json.year.getD (Json.str ""),
            updated_at := prow.updated_at,
            valid_until := some w,
            views_used := client.views_used,
            views_max := cfg.MAX_VIEWS,
            data := prow.payload_json.data.getD (Json.obj []),
            excel := api_excel prow.excel_filename prow.excel_b64 }, db2)) := by
  obtain ⟨hne, fs, hdata⟩ := hvalid
  constructor
  · cases hex : db.clients (pyStrip body.client_id) with
    | none => simp [push_data, hdata, hne, hex, upd_self]
    | some ex => simp [push_data, hdata, hne, hex, upd_self]
  · intro now2 db2 cid client prow w hcl htr hwe hle hprow
    simp [report_api, hcl, htr, hwe, window_missing_or_expired,
      Nat.not_lt.mpr hle, hprow]

/-- C10 witness: the stored document for `c10Body` is the whole body with
its plaintext password, and a concrete admitted data-fetch returns exactly
the data/year projection. -/
theorem C10_witness :
    (push_data cexHash 5 emptyDB c10Body).2.payloads (pyStrip "c") =
      some { payload_json := c10Body, updated_at := 5,
             excel_filename := none, excel_b64 := none } ∧
    report_api defaultConfig 50 wDB true "c" =
      (ApiResult.ok
        { client := pyStrip "c", year := Json.num 2025, updated_at := 0,
          valid_until := some 100, views_used := 1, views_max := 3,
          data := Json.obj [], excel := none }, wDB) := by
  have h := C10_payload_verbatim_api_projection defaultConfig cexHash 5 emptyDB
    c10Body ⟨by decide, _, rfl⟩
  exact ⟨h.1, h.2 50 wDB "c" wRow wPayloadRow 100 rfl (by decide) rfl
    (by omega) rfl⟩

/-!
Effect characterisations of the handlers on the `clients` table, used for
the reachability invariants of C4 and C7.
-/

/-- How `push_data` can affect one key of the `clients` table: leave it
alone, create it fresh (when it was absent, the body was valid, and the
key is the pushed identifier), or rewrite only its password hash. -/
theorem push_clients_cases (sha : String → String) (now : Nat) (db : DB)
    (body : PushBody) (id : String) :
    (push_data sha now db body).2.clients id = db.clients id ∨
    (db.clients id = none ∧ pyStrip body.client_id = id ∧ validPush body ∧
      (push_data sha now db body).2.clients id =
        some { password_hash := pushPasswordHash sha body.password,
               trial_start := now, views_used := 0,
               window_expires_at := none }) ∨
    (∃ ex h2, db.clients id = some ex ∧
      (push_data sha now db body).2.clients id =
        some { ex with password_hash := some h2 }) := by
  by_cases h0 : pyStrip body.client_id = ""
  · left
    simp [push_data, h0]
  · cases hdata : body.data with
    | none => left; simp [push_data, h0, hdata]
    | some j =>
      cases j with
      | null => left; simp [push_data, h0, hdata]
      | str s => left; simp [push_data, h0, hdata]
      | num n => left; simp [push_data, h0, hdata]
      | boolean b => left; simp [push_data, h0, hdata]
      | arr xs => left; simp [push_data, h0, hdata]
      | obj fs =>
        cases hex : db.clients (pyStrip body.client_id) with
        | none =>
          by_cases hid : id = pyStrip body.client_id
          · subst hid
            right; left
            exact ⟨hex, rfl, ⟨h0, fs, hdata⟩,
              by simp [push_data, h0, hdata, hex, upd_self]⟩
          · left
            simp [push_data, h0, hdata, hex, upd, hid]
        | some ex =>
          cases hph : pushPasswordHash sha body.password with
          | none => left; simp [push_data, h0, hdata, hex, hph]
          | some h2 =>
            by_cases hid : id = pyStrip body.client_id
            · subst hid
              right; right
              exact ⟨ex, h2, hex,
                by simp [push_data, h0, hdata, hex, hph, upd_self]⟩
            · left
              simp [push_data, h0, hdata, hex, hph, upd, hid]

/-- How `ensure_access_window` can affect one key of the `clients` table:
leave it alone, or renew it — and renewal happens only below the view
budget. -/
theorem eaw_clients_cases (cfg : Config) (now : Nat) (db : DB)
    (cid id : String) :
    (ensure_access_window cfg now db cid).2.clients id = db.clients id ∨
    (∃ row, db.clients id = some row ∧ row.views_used < cfg.MAX_VIEWS ∧
      (ensure_access_window cfg now db cid).2.clients id =
        some (renewedRecord cfg now row)) := by
  cases hcl : db.clients cid with
  | none => left; simp [ensure_access_window, hcl]
  | some row =>
    cases htr : trial_is_active cfg now row.trial_start with
    | false => left; simp [ensure_access_window, eaw_with_row, hcl, htr]
    | true =>
      cases hw : window_missing_or_expired now row.window_expires_at with
      | false => left; simp [ensure_access_window, eaw_with_row, hcl, htr, hw]
      | true =>
        by_cases hv : cfg.MAX_VIEWS ≤ row.views_used
        · left; simp [ensure_access_window, eaw_with_row, hcl, htr, hw, hv]
        · by_cases hid : id = cid
          · subst hid
            right
            exact ⟨row, hcl, Nat.not_le.mp hv,
              by simp [ensure_access_window, eaw_with_row, hcl, htr, hw, hv, upd_self]⟩
          · left
            simp [ensure_access_window, eaw_with_row, hcl, htr, hw, hv, upd, hid]

/-- The window gate passes `ensure_access_window`'s database state through
unchanged. -/
theorem gate_db_eq (cfg : Config) (now : Nat) (db : DB) (cid : String) :
    (require_active_window_or_403 cfg now db cid).2 =
      (ensure_access_window cfg now db cid).2 := by
  unfold require_active_window_or_403
  dsimp only
  split <;> rfl

/-- The page handler's database state is either untouched or exactly the
state `ensure_access_window` left. -/
theorem page_db_cases (cfg : Config) (now : Nat) (db : DB) (authed : Bool)
    (cid : String) :
    (report_page cfg now db authed cid).2 = db ∨
    (report_page cfg now db authed cid).2 =
      (ensure_access_window cfg now db (pyStrip cid)).2 := by
  cases authed with
  | false => left; rfl
  | true =>
    cases hpay : db.payloads (pyStrip cid) with
    | none => left; simp [report_page, hpay]
    | some prow =>
      right
      have hgd := gate_db_eq cfg now db (pyStrip cid)
      cases hgate : require_active_window_or_403 cfg now db (pyStrip cid) with
      | mk g db2 =>
        rw [hgate] at hgd
        cases g with
        | forbidden msg => simp [report_page, hpay, hgate]; exact hgd
        | allowed rowOpt =>
          cases rowOpt with
          | none => simp [report_page, hpay, hgate]; exact hgd
          | some row => simp [report_page, hpay, hgate]; exact hgd

/-- `report_page`, per key of the `clients` table: untouched or renewed
below the budget. -/
theorem page_clients_cases (cfg : Config) (now : Nat) (db : DB)
    (authed : Bool) (cid id : String) :
    (report_page cfg now db authed cid).2.clients id = db.clients id ∨
    (∃ row, db.clients id = some row ∧ row.views_used < cfg.MAX_VIEWS ∧
      (report_page cfg now db authed cid).2.clients id =
        some (renewedRecord cfg now row)) := by
  rcases page_db_cases cfg now db authed cid with h | h
  · left; rw [h]
  · rw [h]
    exact eaw_clients_cases cfg now db (pyStrip cid) id

/-- Any single request, per key of the `clients` table: untouched; created
fresh with zero views by a valid push for that key; or updated from an
existing row without decreasing `views_used` and without exceeding the
budget. -/
theorem applyOp_clients_cases (cfg : Config) (sha : String → String)
    (db : DB) (op : Op) (id : String) :
    (applyOp cfg sha db op).clients id = db.clients id ∨
    (db.clients id = none ∧ Op.createsClient op id ∧
      ∃ r2, (applyOp cfg sha db op).clients id = some r2 ∧
        r2.views_used = 0) ∨
    (∃ ex r2, db.clients id = some ex ∧
      (applyOp cfg sha db op).clients id = some r2 ∧
      ex.views_used ≤ r2.views_used ∧
      (r2.views_used ≤ cfg.MAX_VIEWS ∨ r2.views_used = ex.views_used)) := by
  cases op with
  | push now body =>
    rcases push_clients_cases sha now db body id with h | ⟨hn, hk, hv, h⟩ | ⟨ex, h2, hex, h⟩
    · left; exact h
    · right; left
      exact ⟨hn, ⟨hk, hv⟩, _, h, rfl⟩
    · right; right
      exact ⟨ex, _, hex, h, le_refl _, Or.inr rfl⟩
  | page now authed cid =>
    rcases page_clients_cases cfg now db authed cid id with h | ⟨row, hrow, hv, h⟩
    · left; exact h
    · right; right
      refine ⟨row, renewedRecord cfg now row, hrow, h, ?_, Or.inl ?_⟩
      · exact Nat.le_succ _
      · exact Nat.succ_le_of_lt hv
  | api now authed cid =>
    left
    show (report_api cfg now db authed cid).2.clients id = db.clients id
    rw [report_api_db_eq]
  | login cid pw =>
    left; rfl

/-- A valid push for `id` always leaves a `clients` row at `id`. -/
theorem push_creates_ne_none (sha : String → String) (now : Nat) (db : DB)
    (body : PushBody) (id : String)
    (hk : pyStrip body.client_id = id) (hv : validPush body) :
    (push_data sha now db body).2.clients id ≠ none := by
  obtain ⟨hne, fs, hdata⟩ := hv
  subst hk
  cases hex : db.clients (pyStrip body.client_id) with
  | none => simp [push_data, hdata, hne, hex, upd_self]
  | some ex =>
    cases hph : pushPasswordHash sha body.password with
    | none => simp [push_data, hdata, hne, hex, hph]
    | some h2 => simp [push_data, hdata, hne, hex, hph, upd_self]

/-- Creating requests leave the created row behind. -/
theorem createsClient_ne_none (cfg : Config) (sha : String → String)
    (db : DB) (op : Op) (id : String) (h : Op.createsClient op id) :
    (applyOp cfg sha db op).clients id ≠ none := by
  cases op with
  | push now body => exact push_creates_ne_none sha now db body id h.1 h.2
  | page now authed cid => exact False.elim h
  | api now authed cid => exact False.elim h
  | login cid pw => exact False.elim h

/-- One step of existence: after a request, a `clients` row exists at `id`
iff it existed before or the request was a valid push for `id`. -/
theorem applyOp_ne_none_iff (cfg : Config) (sha : String → String)
    (db : DB) (op : Op) (id : String) :
    (applyOp cfg sha db op).clients id ≠ none ↔
      (db.clients id ≠ none ∨ Op.createsClient op id) := by
  constructor
  · intro h
    rcases applyOp_clients_cases cfg sha db op id with hc | ⟨-, hcr, -⟩ | ⟨ex, r2, hex, -, -, -⟩
    · rw [hc] at h
      exact Or.inl h
    · exact Or.inr hcr
    · refine Or.inl ?_
      rw [hex]
      simp
  · rintro (h | h)
    · rcases applyOp_clients_cases cfg sha db op id with hc | ⟨hn, -, -⟩ | ⟨ex, r2, -, h2, -, -⟩
      · rw [hc]
        exact h
      · exact absurd hn h
      · rw [h2]
        simp
    · exact createsClient_ne_none cfg sha db op id h

/-- Existence over a whole trace: a row exists after the trace iff it
existed before or some operation of the trace is a valid push for it. -/
theorem runOps_ne_none_iff (cfg : Config) (sha : String → String) :
    ∀ (ops : List Op) (db : DB) (id : String),
      (runOps cfg sha db ops).clients id ≠ none ↔
        (db.clients id ≠ none ∨ ∃ op, op ∈ ops ∧ Op.createsClient op id) := by
  intro ops
  induction ops with
  | nil =>
    intro db id
    simp [runOps]
  | cons op ops ih =>
    intro db id
    simp only [runOps]
    rw [ih, applyOp_ne_none_iff]
    constructor
    · rintro ((h | h) | ⟨op2, hmem, hcr⟩)
      · exact Or.inl h
      · exact Or.inr ⟨op, List.mem_cons_self op ops, h⟩
      · exact Or.inr ⟨op2, List.mem_cons_of_mem op hmem, hcr⟩
    · rintro (h | ⟨op2, hmem, hcr⟩)
      · exact Or.inl (Or.inl h)
      · rcases List.mem_cons.mp hmem with rfl | hmem2
        · exact Or.inl (Or.inr hcr)
        · exact Or.inr ⟨op2, hmem2, hcr⟩

/-- The bound `views_used ≤ MAX_VIEWS` is preserved by every request. -/
theorem applyOp_views_le (cfg : Config) (sha : String → String) (db : DB)
    (op : Op)
    (H : ∀ id r, db.clients id = some r → r.views_used ≤ cfg.MAX_VIEWS) :
    ∀ id r, (applyOp cfg sha db op).clients id = some r →
      r.views_used ≤ cfg.MAX_VIEWS := by
  intro id r hr
  rcases applyOp_clients_cases cfg sha db op id with hc | ⟨-, -, r2, h2, h0⟩ | ⟨ex, r2, hex, h2, -, hb⟩
  · rw [hc] at hr
    exact H id r hr
  · rw [h2] at hr
    injection hr with h
    subst h
    rw [h0]
    exact Nat.zero_le _
  · rw [h2] at hr
    injection hr with h
    subst h
    rcases hb with hb | hb
    · exact hb
    · rw [hb]
      exact H id ex hex

/-- C4: along any sequence of requests served from the empty store,
`views_used` never exceeds `MAX_VIEWS` in any reachable state, never
decreases from one state to the next, and is 0 when a client row first
appears. -/
theorem C4_views_used_invariants (cfg : Config) (sha : String → String)
    (ops : List Op) :
    (∀ id r, (runOps cfg sha emptyDB ops).clients id = some r →
      r.views_used ≤ cfg.MAX_VIEWS) ∧
    (∀ op id r r2,
      (runOps cfg sha emptyDB ops).clients id = some r →
      (applyOp cfg sha (runOps cfg sha emptyDB ops) op).clients id = some r2 →
      r.views_used ≤ r2.views_used) ∧
    (∀ op id r2,
      (runOps cfg sha emptyDB ops).clients id = none →
      (applyOp cfg sha (runOps cfg sha emptyDB ops) op).clients id = some r2 →
      r2.views_used = 0) := by
  refine ⟨?_, ?_, ?_⟩
  · have main : ∀ (l : List Op) (db : DB),
        (∀ id r, db.clients id = some r → r.views_used ≤ cfg.MAX_VIEWS) →
        ∀ id r, (runOps cfg sha db l).clients id = some r →
          r.views_used ≤ cfg.MAX_VIEWS := by
      intro l
      induction l with
      | nil => intro db H; exact H
      | cons op l ih =>
        intro db H
        exact ih (applyOp cfg sha db op) (applyOp_views_le cfg sha db op H)
    exact main ops emptyDB (fun id r hr => Option.noConfusion hr)
  · intro op id r r2 hr hr2
    rcases applyOp_clients_cases cfg sha (runOps cfg sha emptyDB ops) op id
      with hc | ⟨hn, -, -⟩ | ⟨ex, r3, hex, h2, hle, -⟩
    · rw [hc, hr] at hr2
      injection hr2 with h
      subst h
      exact le_refl _
    · rw [hn] at hr
      exact Option.noConfusion hr
    · rw [hex] at hr
      injection hr with h
      subst h
      rw [h2] at hr2
      injection hr2 with h
      subst h
      exact hle
  · intro op id r2 hn hr2
    rcases applyOp_clients_cases cfg sha (runOps cfg sha emptyDB ops) op id
      with hc | ⟨-, -, r3, h2, h0⟩ | ⟨ex, r3, hex, -, -, -⟩
    · rw [hc, hn] at hr2
      exact Option.noConfusion hr2
    · rw [h2] at hr2
      injection hr2 with h
      subst h
      exact h0
    · rw [hex] at hn
      exact Option.noConfusion hn

/-- C4 witness: after one concrete push, the created row respects the
bound; a read-only request keeps `views_used` at its prior value; and the
created row starts at 0 views. -/
theorem C4_witness :
    ((runOps defaultConfig cexHash emptyDB [Op.push 5 wBody]).clients "c" =
      some { password_hash := none, trial_start := 5, views_used := 0,
             window_expires_at := none }) ∧
    ({ password_hash := none, trial_start := 5, views_used := 0,
       window_expires_at := none } : ClientRecord).views_used ≤
      defaultConfig.MAX_VIEWS ∧
    ({ password_hash := none, trial_start := 5, views_used := 0,
       window_expires_at := none } : ClientRecord).views_used = 0 := by
  have hr : (runOps defaultConfig cexHash emptyDB [Op.push 5 wBody]).clients "c" =
      some { password_hash := none, trial_start := 5, views_used := 0,
             window_expires_at := none } := rfl
  have h := C4_views_used_invariants defaultConfig cexHash [Op.push 5 wBody]
  refine ⟨hr, h.1 "c" _ hr, ?_⟩
  have h3 := (C4_views_used_invariants defaultConfig cexHash []).2.2
    (Op.push 5 wBody) "c" _ rfl hr
  exact h3

/-- C7: a push for a previously unknown identifier creates exactly one
client row — at the pushed key, with `trial_start = now`,
`views_used = 0`, `window_expires_at` null — stores the supplied body
verbatim as the payload, and, over any trace from the empty store, a
client row exists iff the trace contains a push for that identifier that
passed the handler's validation. -/
theorem C7_first_push_creates (cfg : Config) (sha : String → String)
    (now : Nat) (db : DB) (body : PushBody)
    (hnew : db.clients (pyStrip body.client_id) = none)
    (hvalid : validPush body) :
    ((push_data sha now db body).2.clients (pyStrip body.client_id) =
      some { password_hash := pushPasswordHash sha body.password,
             trial_start := now, views_used := 0,
             window_expires_at := none }) ∧
    (∀ id, id ≠ pyStrip body.client_id →
      (push_data sha now db body).2.clients id = db.clients id) ∧
    ((push_data sha now db body).2.payloads (pyStrip body.client_id) =
      some { payload_json := body, updated_at := now,
             excel_filename := body.excel_filename,
             excel_b64 := body.excel_b64 }) ∧
    (∀ (ops : List Op) (id : String),
      (runOps cfg sha emptyDB ops).clients id ≠ none ↔
        ∃ op, op ∈ ops ∧ Op.createsClient op id) := by
  obtain ⟨hne, fs, hdata⟩ := hvalid
  refine ⟨?_, ?_, ?_, ?_⟩
  · simp [push_data, hdata, hne, hnew, upd_self]
  · intro id hid
    simp [push_data, hdata, hne, hnew, upd, hid]
  · simp [push_data, hdata, hne, hnew, upd_self]
  · intro ops id
    rw [runOps_ne_none_iff]
    simp [emptyDB]

/-- C7 witness: pushing `wBody` at time 5 into the empty store creates the
fresh row for "c", touches no other key, stores the body verbatim, and
makes "c" exist in the trace sense. -/
theorem C7_witness :
    ((push_data cexHash 5 emptyDB wBody).2.clients (pyStrip "c") =
      some { password_hash := none, trial_start := 5, views_used := 0,
             window_expires_at := none }) ∧
    ((push_data cexHash 5 emptyDB wBody).2.clients "d" = none) ∧
    ((push_data cexHash 5 emptyDB wBody).2.payloads (pyStrip "c") =
      some { payload_json := wBody, updated_at := 5,
             excel_filename := none, excel_b64 := none }) ∧
    ((runOps defaultConfig cexHash emptyDB [Op.push 5 wBody]).clients "c" ≠ none) := by
  have h := C7_first_push_creates defaultConfig cexHash 5 emptyDB wBody rfl
    ⟨by decide, [], rfl⟩
  refine ⟨h.1, ?_, h.2.2.1, ?_⟩
  · exact h.2.1 "d" (by decide)
  · exact (h.2.2.2 [Op.push 5 wBody] "c").mpr
      ⟨Op.push 5 wBody, List.mem_cons_self _ _, by decide, by decide, [], rfl⟩

end Sage
